import Mathlib

/-!
Shallow embedding of `src/executor/sauce.js` (testarmada-magellan sauce
executor): the `Locks` client (acquire/release polling protocol), the
`Tunnel` supervisor (connect retry loop with the process-wide
`connectFailures` counter and `BAILED` latch, option assembly for the
launcher, close), and the module's `validateConfig`.

JavaScript values that are either a string or absent (`undefined`/`null`)
are modelled as `Option String`; JS truthiness of such a value is
`jsTruthy`.  Asynchronous collaborators (the HTTP `request` library, the
`sauce-connect-launcher` callback) are modelled by scripting their
outcomes: a run function consumes a list of outcomes, one per issued
request or launcher invocation, and returns the terminal callback /
promise result together with the shared state and the number of
interactions.
-/

/-- Truthiness of a JS value that is either a string or undefined/null:
`undefined`, `null` and the empty string are falsy. -/
def jsTruthy : Option String → Bool
  | none => false
  | some s => s != ""

/-- The needle list occurs at the front of the haystack list. -/
def leadsWith : List Char → List Char → Bool
  | _, [] => true
  | [], _ :: _ => false
  | c :: cs, d :: ds => (c == d) && leadsWith cs ds

/-- The needle list occurs somewhere in the haystack list. -/
def occursIn (needle : List Char) : List Char → Bool
  | [] => needle.isEmpty
  | c :: cs => leadsWith (c :: cs) needle || occursIn needle cs

/-- Model of the JS test `hay.indexOf(needle) > -1`. -/
def jsIndexOfFound (hay needle : String) : Bool :=
  occursIn needle.data hay.data

/-! ## Locks client (`class Locks`, sauce.js lines 23-125) -/

/-- Locks-related options, as held in the module `config` object. -/
structure LocksConfig where
  locksServerLocation : Option String
  locksRequestTimeout : Nat
  locksOutageTimeout : Nat
  locksPollingInterval : Nat
deriving Repr, DecidableEq

/-- Outcome of one claim request as seen by the `request.post` callback
`(error, response, body)`, after the `JSON.parse(body)` stage is taken
into account:
* `transportErr e` — the `error` argument is truthy (timeout, connection
  refused, ...); `e` is its string rendering;
* `malformedBody` — `error` was falsy but `JSON.parse(body)` throws;
* `falsyResult` — `JSON.parse(body)` returns a falsy value (`null`,
  `false`, `0`, the empty string);
* `result accepted token` — `JSON.parse(body)` returns an object whose
  `accepted` field has the given truthiness and whose `token` field is
  `token`. -/
inductive ClaimAttemptOutcome where
  | transportErr (e : String)
  | malformedBody
  | falsyResult
  | result (accepted : Bool) (token : Option String)
deriving Repr, DecidableEq

/-- An invocation of the caller-supplied node-style callback. -/
inductive CallbackCall where
  /-- Error in the first argument: `callback(new Error msg)`. -/
  | err (msg : String)
  /-- Success carrying a claim token object: `callback(null, obj)` with
  `obj.token = token`. -/
  | ok (token : Option String)
  /-- Bare `callback()` with no arguments. -/
  | empty
deriving Repr, DecidableEq

/-- What one round of `poll` decides to do after its request resolves. -/
inductive PollAction where
  /-- Invoke the caller's callback and stop polling. -/
  | finish (c : CallbackCall)
  /-- `setTimeout(poll, locksPollingInterval)`: poll again. -/
  | retry
deriving Repr, DecidableEq

/-- Handler body of the `request.post` callback inside `Locks.acquire`
(sauce.js lines 52-95).  `pollingStartTime` is the time recorded before
the first attempt and `now` the value of `Date.now()` when the response
handler runs.  Only an exception thrown before the callback is invoked
reaches the `catch` block, and with a conventional non-throwing caller
callback that is exactly the `JSON.parse` failure: the transport-error,
falsy-result and not-accepted branches each `return callback(new
Error(...))` directly from the `try` block. -/
def handleClaim (cfg : LocksConfig) (pollingStartTime now : Nat) :
    ClaimAttemptOutcome → PollAction
  | .transportErr e => .finish (.err e)
  | .result accepted token =>
    if accepted then
      .finish (.ok token)
    else
      .finish (.err "Request not accepted")
  | .falsyResult =>
    .finish (.err "Result from locks server is invalid or empty")
  | .malformedBody =>
    if now - pollingStartTime > cfg.locksOutageTimeout then
      .finish (.err "Gave up trying to get a saucelabs VM from locks server.")
    else
      .retry

/-- The polling loop of `Locks.acquire`: each element of the script is
the `(Date.now(), outcome)` of one issued claim request; returns the
number of claim requests issued and the callback invocation that ended
the loop (`none` when the script ran out with a request pending). -/
def acquireLoop (cfg : LocksConfig) (pollingStartTime : Nat) :
    List (Nat × ClaimAttemptOutcome) → Nat × Option CallbackCall
  | [] => (1, none)
  | (now, out) :: rest =>
    match handleClaim cfg pollingStartTime now out with
    | .finish c => (1, some c)
    | .retry =>
      let r := acquireLoop cfg pollingStartTime rest
      (r.1 + 1, r.2)

/-- Model of `Locks.acquire` (sauce.js lines 33-103): when
`locksServerLocation` is falsy the callback is invoked at once with no
arguments and no request is issued; otherwise the polling loop runs. -/
def acquireRun (cfg : LocksConfig) (pollingStartTime : Nat)
    (script : List (Nat × ClaimAttemptOutcome)) : Nat × Option CallbackCall :=
  if jsTruthy cfg.locksServerLocation then
    acquireLoop cfg pollingStartTime script
  else
    (0, some .empty)

/-- An HTTP request issued by `Locks.release`: method, url, and the
`token` field of its JSON body. -/
structure ReleaseRequest where
  method : String
  url : String
  bodyToken : Option String
deriving Repr, DecidableEq

/-- Remote outcome of the release request, as seen by the `request`
library: it invokes its completion callback exactly once in every case. -/
inductive ReleaseOutcome where
  | ok
  | non2xx
  | timeout
  | transportErr
deriving Repr, DecidableEq

/-- Model of `Locks.release` (sauce.js lines 105-124): the requests it
issues and the invocations of the caller's callback.  The request
completion handler is `() => callback()` — it ignores the remote
outcome entirely. -/
def releaseRun (cfg : LocksConfig) (token : Option String)
    (outcome : ReleaseOutcome) : List ReleaseRequest × List CallbackCall :=
  match cfg.locksServerLocation with
  | some s =>
    if s != "" then
      match outcome with
      | _ => ([⟨"POST", s ++ "/release", token⟩], [.empty])
    else
      ([], [.empty])
  | none => ([], [.empty])

/-! ## Tunnel supervisor (`class Tunnel`, sauce.js lines 127-244) -/

/-- Classifier on the launcher error message used at sauce.js line 197:
`err.message && err.message.indexOf("Could not start Sauce Connect") > -1`. -/
def isFatalSauceErr (msg : String) : Bool :=
  (msg != "") && jsIndexOfFound msg "Could not start Sauce Connect"

/-- Process-wide shared retry state: the module-level `connectFailures`
counter (initialised to 1 at sauce.js line 17) and the `BAILED` latch
(initialised to `false` at line 21). -/
structure TunnelRetryState where
  connectFailures : Nat
  bailed : Bool
deriving Repr, DecidableEq

/-- Initial values of the module-level retry state:
`let connectFailures = 1; let BAILED = false;`. -/
def initRetryState : TunnelRetryState := ⟨1, false⟩

/-- Default of `MAX_CONNECT_RETRIES` (sauce.js line 19). -/
def MAX_CONNECT_RETRIES : Nat := 10

/-- How one `connect()` promise of `Tunnel.open` settles. -/
inductive ConnectResult where
  /-- The launcher reported success; `tunnelInfo` is set and the promise
  resolves. -/
  | resolved
  /-- Fatal path (line 198): `reject(err.message)`. -/
  | rejectedFatal (msg : String)
  /-- Bailed path (line 203): reject with the error saying
  "Bailed due to maximum number of tunnel retries.". -/
  | rejectedBailed
  /-- Retry budget exhausted (line 211): reject with the error saying
  a secure sauce tunnel failed after `attempts` attempts. -/
  | rejectedMaxRetries (attempts : Nat)
  /-- The outcome script ran out with a launcher invocation outstanding:
  the promise is still pending (the loop was still retrying). -/
  | pending
deriving Repr, DecidableEq

/-- The `connect` retry loop of `Tunnel.open` (sauce.js lines 171-228),
over a script of `sauceConnectLauncher` invocation outcomes (`none` =
success, `some msg` = error with message `msg`).  Returns the promise
result, the shared retry state after the run, and the number of launcher
invocations made.  Mirrors the classification order of lines 193-219:
fatal substring first, then the `BAILED` latch, then the transient path
that increments `connectFailures`, trips `BAILED` when the counter
reaches `maxRetries`, and otherwise recurses immediately. -/
def connectRun (maxRetries : Nat) (st : TunnelRetryState) :
    List (Option String) → ConnectResult × TunnelRetryState × Nat
  | [] => (.pending, st, 0)
  | outcome :: rest =>
    match outcome with
    | none => (.resolved, st, 1)
    | some msg =>
      if isFatalSauceErr msg then
        (.rejectedFatal msg, st, 1)
      else if st.bailed then
        (.rejectedBailed, ⟨st.connectFailures + 1, st.bailed⟩, 1)
      else
        let st' : TunnelRetryState := ⟨st.connectFailures + 1, st.bailed⟩
        if st'.connectFailures ≥ maxRetries then
          (.rejectedMaxRetries st'.connectFailures, ⟨st'.connectFailures, true⟩, 1)
        else
          let r := connectRun maxRetries st' rest
          (r.1, r.2.1, r.2.2 + 1)

/-- The options object a `Tunnel` holds (`this.options`), restricted to
the properties `connect` reads. -/
structure TunnelOptions where
  username : Option String
  accessKey : Option String
  sauceTunnelId : Option String
  fastFailRegexps : Option String
deriving Repr, DecidableEq

/-- JS property access on the options object by property name: a name
that is not a property of the object reads as `undefined` (`none`). -/
def TunnelOptions.get (o : TunnelOptions) : String → Option String
  | "username" => o.username
  | "accessKey" => o.accessKey
  | "sauceTunnelId" => o.sauceTunnelId
  | "fastFailRegexps" => o.fastFailRegexps
  | _ => none

/-- String rendering of a possibly-undefined JS value inside a template
concatenation. -/
def jsStr : Option String → String
  | none => "undefined"
  | some s => s

/-- The `sauceOptions` object passed to `sauceConnectLauncher`
(sauce.js lines 175-188).  A `none` value of `fastFailRegexps` models
the property being absent or `undefined`. -/
structure SauceOptions where
  username : Option String
  accessKey : Option String
  tunnelIdentifier : Option String
  readyFileId : Option String
  verbose : Bool
  verboseDebugging : Bool
  logfile : String
  port : Nat
  fastFailRegexps : Option String
deriving Repr, DecidableEq

/-- Builds `sauceOptions` exactly as `connect` does: the base object of
lines 175-184, then, when `this.options.fastFailRegexps` is truthy, the
assignment of line 187, which reads the misspelled property
`this.options.fastFailRegexpss`. -/
def mkSauceOptions (o : TunnelOptions) (resolvedTempDir buildId : String)
    (debug : Bool) : SauceOptions :=
  let tunnelId := o.get "sauceTunnelId"
  let logFilePath := resolvedTempDir ++ "/build-" ++ buildId
    ++ "_sauceconnect_" ++ jsStr tunnelId ++ ".log"
  let base : SauceOptions :=
    { username := o.get "username"
      accessKey := o.get "accessKey"
      tunnelIdentifier := tunnelId
      readyFileId := tunnelId
      verbose := debug
      verboseDebugging := debug
      logfile := logFilePath
      port := 56000
      fastFailRegexps := none }
  if jsTruthy (o.get "fastFailRegexps") then
    { base with fastFailRegexps := o.get "fastFailRegexpss" }
  else
    base

/-- Observable events of a `Tunnel.close` run. -/
inductive CloseEvent where
  /-- `this.tunnelInfo.process.close(...)` was invoked. -/
  | procCloseCall
  /-- The promise resolved. -/
  | resolved
  /-- The promise rejected (no code path emits this: the promise
  executor of `close` only receives `resolve`). -/
  | rejected
deriving Repr, DecidableEq

/-- Model of `Tunnel.close` (sauce.js lines 231-243): the ordered events
of one call, given whether `this.tunnelInfo` is set (it is set only when
a launcher invocation succeeded).  With a subprocess handle the promise
resolves only inside the `process.close` acknowledgment callback. -/
def closeRun (tunnelInfo : Option Unit) : List CloseEvent :=
  match tunnelInfo with
  | some _ => [.procCloseCall, .resolved]
  | none => [.resolved]

/-! ## Executor facade: `validateConfig` (sauce.js lines 341-430) -/

/-- Command-line arguments `validateConfig` reads from `runOpts.argv`.
String-valued flags are `Option String` (absent = `none`);
`sauce_create_tunnels` is boolean. -/
structure Argv where
  sauce_browser : Option String
  sauce_browsers : Option String
  sauce_tunnel_id : Option String
  shared_sauce_parent_account : Option String
  sauce_create_tunnels : Bool
deriving Repr, DecidableEq

/-- Environment variables `validateConfig` reads from `runOpts.env`. -/
structure EnvVars where
  SAUCE_USERNAME : Option String
  SAUCE_ACCESS_KEY : Option String
  SAUCE_CONNECT_VERSION : Option String
  SAUCE_TUNNEL_CLOSE_TIMEOUT : Option String
  SAUCE_TUNNEL_FAST_FAIL_REGEXPS : Option String
  LOCKS_SERVER : Option String
deriving Repr, DecidableEq

/-- The module-level `config` object (sauce.js lines 246-265), after
assignment. -/
structure Config where
  username : Option String
  accessKey : Option String
  sauceConnectVersion : Option String
  sauceTunnelId : Option String
  sharedSauceParentAccount : Option String
  tunnelTimeout : Option String
  useTunnels : Bool
  fastFailRegexps : Option String
  locksServerLocation : Option String
  maxTunnels : Nat
  locksOutageTimeout : Nat
  locksPollingInterval : Nat
  locksRequestTimeout : Nat
deriving Repr, DecidableEq

/-- Trailing-slash normalization of `config.locksServerLocation`
(sauce.js lines 360-365): applied when the value is a string of positive
length whose last character is a slash. -/
def stripTrailingSlash : Option String → Option String
  | none => none
  | some s =>
    if s.length > 0 && s.endsWith "/" then
      some (s.dropRight 1)
    else
      some s

/-- The assignment part of `validateConfig` (sauce.js lines 346-365):
fills the module `config` from environment and argv and normalizes the
locks server location.  The numeric fields keep their literal defaults
from the `config` object literal. -/
def assignConfig (argv : Argv) (env : EnvVars) : Config :=
  { username := env.SAUCE_USERNAME
    accessKey := env.SAUCE_ACCESS_KEY
    sauceConnectVersion := env.SAUCE_CONNECT_VERSION
    sauceTunnelId := argv.sauce_tunnel_id
    sharedSauceParentAccount := argv.shared_sauce_parent_account
    useTunnels := argv.sauce_create_tunnels
    tunnelTimeout := env.SAUCE_TUNNEL_CLOSE_TIMEOUT
    fastFailRegexps := env.SAUCE_TUNNEL_FAST_FAIL_REGEXPS
    locksServerLocation := stripTrailingSlash env.LOCKS_SERVER
    maxTunnels := 1
    locksOutageTimeout := 300000
    locksPollingInterval := 2500
    locksRequestTimeout := 2500 }

/-- Model of `validateConfig` (sauce.js lines 341-430).  `genGuid` is the
value `guid()` would produce when the auto-generation branch runs.  The
required-credential check, the tunnel-flag exclusivity checks and the
tunnel-id auto-generation all sit inside the
`if (runOpts.argv.sauce_browsers || runOpts.argv.sauce_browser)` guard
(lines 383-422); outside it the function just assigns and returns. -/
def validateConfig (genGuid : String) (argv : Argv) (env : EnvVars) :
    Except String Config :=
  let cfg := assignConfig argv env
  if jsTruthy argv.sauce_browsers || jsTruthy argv.sauce_browser then
    let valid := jsTruthy cfg.username && jsTruthy cfg.accessKey
    if !valid then
      Except.error "Missing configuration for Saucelabs connection."
    else if argv.sauce_create_tunnels && jsTruthy argv.sauce_tunnel_id then
      Except.error "Only one Saucelabs tunnel arg is allowed, --sauce_tunnel_id or --create_tunnels."
    else if argv.sauce_create_tunnels && jsTruthy argv.shared_sauce_parent_account then
      Except.error "--shared_sauce_parent_account only works with --sauce_tunnel_id."
    else if !(jsTruthy cfg.sauceTunnelId) && cfg.useTunnels then
      Except.ok { cfg with sauceTunnelId := some genGuid }
    else
      Except.ok cfg
  else
    Except.ok cfg

/-! ## Helper lemmas -/

/-- One transient failure below the budget steps the retry loop: the
counter increments and the loop recurses immediately on the rest of the
script. -/
theorem connectRun_transient_step (maxR cf : Nat) (msg : String)
    (rest : List (Option String)) (hf : isFatalSauceErr msg = false)
    (hlt : ¬ cf + 1 ≥ maxR) :
    connectRun maxR ⟨cf, false⟩ (some msg :: rest)
      = ((connectRun maxR ⟨cf + 1, false⟩ rest).1,
         (connectRun maxR ⟨cf + 1, false⟩ rest).2.1,
         (connectRun maxR ⟨cf + 1, false⟩ rest).2.2 + 1) := by
  simp [connectRun, hf, hlt]

/-! ## Claims -/

/-- C1: the claim says transport failures, malformed bodies and
`accepted:false` responses are all tolerated and re-polled until the
outage window closes.  In the code only a thrown `JSON.parse` reaches
the tolerate-and-retry `catch` block: at time 0, far inside the
300000 ms outage window, a transport error or an `accepted:false`
response makes `acquire` invoke the caller's callback with an error
after a single request and no re-poll, while a malformed body at the
same instant is retried.  This contradicts the code's own comments
("If we didn't get a worker, try again", "All of the above errors end
up here so that we can indiscriminately choose to tolerate all types of
errors until we've waited too long"). -/
theorem C1_retryable_classes_not_unified :
    acquireRun ⟨some "http://locks", 2500, 300000, 2500⟩ 0
        [(0, .result false none)]
      = (1, some (.err "Request not accepted")) ∧
    acquireRun ⟨some "http://locks", 2500, 300000, 2500⟩ 0
        [(0, .transportErr "ETIMEDOUT")]
      = (1, some (.err "ETIMEDOUT")) ∧
    acquireRun ⟨some "http://locks", 2500, 300000, 2500⟩ 0
        [(0, .malformedBody), (2500, .result true (some "tok"))]
      = (2, some (.ok (some "tok"))) :=
  ⟨rfl, rfl, rfl⟩

/-- C2 counterexample: with `BAILED` already true (failure count 5), an
`open()` attempt whose launcher invocation succeeds resolves normally —
it invokes the tunnel launcher (one invocation) and does not reject with
a "bailed" error, refuting "every in-flight and future open() attempt
rejects with a bailed error without invoking the tunnel launcher". -/
theorem C2_bailed_open_resolves_counterexample :
    connectRun 10 ⟨5, true⟩ [none] = (.resolved, ⟨5, true⟩, 1) := rfl

/-- C2 amended: the `BAILED` latch is monotonic — once true it stays
true through any further run — and once it is set, an attempt whose
launcher invocation fails with a non-fatal error rejects with the
"bailed" error after exactly one launcher invocation (no retry), still
incrementing the shared failure counter.  The launcher is still invoked
first, and a successful invocation still resolves. -/
theorem C2_bailed_latch_amended :
    (∀ (maxR : Nat) (st : TunnelRetryState) (script : List (Option String)),
        st.bailed = true → (connectRun maxR st script).2.1.bailed = true) ∧
    (∀ (maxR : Nat) (st : TunnelRetryState) (msg : String)
        (rest : List (Option String)),
        st.bailed = true → isFatalSauceErr msg = false →
        connectRun maxR st (some msg :: rest)
          = (.rejectedBailed, ⟨st.connectFailures + 1, true⟩, 1)) := by
  constructor
  · intro maxR st script h
    cases script with
    | nil => simpa [connectRun] using h
    | cons outcome rest =>
      cases outcome with
      | none => simpa [connectRun] using h
      | some msg =>
        cases hf : isFatalSauceErr msg with
        | true => simpa [connectRun, hf] using h
        | false => simp [connectRun, hf, h]
  · intro maxR st msg rest h hf
    simp [connectRun, hf, h]

/-- C2 witness: the amended theorem at `maxR = 10`, state `⟨3, true⟩`,
and a non-fatal launcher error. -/
theorem C2_bailed_latch_amended_witness :
    (connectRun 10 ⟨3, true⟩ [some "boom"]).2.1.bailed = true ∧
    connectRun 10 ⟨3, true⟩ [some "boom"] = (.rejectedBailed, ⟨4, true⟩, 1) :=
  ⟨C2_bailed_latch_amended.1 10 ⟨3, true⟩ [some "boom"] rfl,
   C2_bailed_latch_amended.2 10 ⟨3, true⟩ "boom" [] rfl rfl⟩

/-- C3 counterexample: starting from the module's initial state
(`connectFailures = 1`), a script of only 9 transient launcher failures
already yields the terminal max-retries rejection with the circuit open
after 9 launcher invocations — so the 10th transient failure can never
be the one that first makes the counter reach `MAX_CONNECT_RETRIES`:
the counter starts at 1, and the 9th failure brings it to 10. -/
theorem C3_ninth_failure_counterexample :
    connectRun MAX_CONNECT_RETRIES initRetryState
        (List.replicate 9 (some "tunnel did not come up"))
      = (.rejectedMaxRetries 10, ⟨10, true⟩, 9) := rfl

/-- C3 amended: with `MAX_CONNECT_RETRIES = 10` and `connectFailures`
initialised to 1, each transient failure increments the shared counter
and retries immediately; after 8 transient failures the loop is still
retrying with counter 9 and the circuit closed, and the 9th transient
failure is the one that first makes the counter reach 10, sets the
circuit open, and rejects with the terminal max-retries error. -/
theorem C3_retry_count_amended :
    ∀ msg, isFatalSauceErr msg = false →
      connectRun MAX_CONNECT_RETRIES initRetryState
          (List.replicate 8 (some msg)) = (.pending, ⟨9, false⟩, 8) ∧
      connectRun MAX_CONNECT_RETRIES initRetryState
          (List.replicate 9 (some msg)) = (.rejectedMaxRetries 10, ⟨10, true⟩, 9) := by
  intro msg h
  constructor <;>
    simp [connectRun, MAX_CONNECT_RETRIES, initRetryState, List.replicate, h]

/-- C3 witness: the amended theorem at a concrete non-fatal launcher
error message. -/
theorem C3_retry_count_amended_witness :
    connectRun MAX_CONNECT_RETRIES initRetryState
        (List.replicate 8 (some "blip")) = (.pending, ⟨9, false⟩, 8) ∧
    connectRun MAX_CONNECT_RETRIES initRetryState
        (List.replicate 9 (some "blip")) = (.rejectedMaxRetries 10, ⟨10, true⟩, 9) :=
  C3_retry_count_amended "blip" rfl

/-- C4: for every configuration, token and remote outcome of the release
request, `release` invokes the caller's callback exactly once, with no
arguments (so no error is ever propagated). -/
theorem C4_release_callback_exactly_once :
    ∀ (cfg : LocksConfig) (token : Option String) (outcome : ReleaseOutcome),
      (releaseRun cfg token outcome).2 = [CallbackCall.empty] := by
  intro cfg token outcome
  rcases cfg with ⟨loc, a, b, c⟩
  cases loc with
  | none => rfl
  | some s =>
    by_cases h : s = ""
    · subst h; cases outcome <;> rfl
    · cases outcome <;> simp [releaseRun, h]

/-- C5: a launcher error whose message contains "Could not start Sauce
Connect" makes the attempt reject immediately with that message after a
single launcher invocation: no retry, and the shared failure counter and
circuit latch are left exactly as they were — for any prior shared
state and any retry budget. -/
theorem C5_fatal_rejects_immediately :
    ∀ (maxR : Nat) (st : TunnelRetryState) (msg : String)
      (rest : List (Option String)),
      isFatalSauceErr msg = true →
      connectRun maxR st (some msg :: rest) = (.rejectedFatal msg, st, 1) := by
  intro maxR st msg rest h
  simp [connectRun, h]

/-- C5 witness: the fatal path on the very first attempt, from the
initial shared state. -/
theorem C5_fatal_witness :
    connectRun 10 ⟨1, false⟩ [some "Could not start Sauce Connect. Error: bad credentials."]
      = (.rejectedFatal "Could not start Sauce Connect. Error: bad credentials.",
         ⟨1, false⟩, 1) :=
  C5_fatal_rejects_immediately 10 ⟨1, false⟩
    "Could not start Sauce Connect. Error: bad credentials." [] rfl

/-- C6: with a truthy server location, an accepted claim response with
token `t` resolves `acquire` with exactly `t`, and `release` of `t`
issues exactly one POST to `serverLocation ++ "/release"` whose body
token field is `t` unmodified — the round trip preserves the token. -/
theorem C6_token_roundtrip :
    ∀ (s : String) (t : Option String) (outcome : ReleaseOutcome)
      (cfg : LocksConfig) (start now : Nat),
      s ≠ "" → cfg.locksServerLocation = some s →
      handleClaim cfg start now (.result true t) = .finish (.ok t) ∧
      releaseRun cfg t outcome = ([⟨"POST", s ++ "/release", t⟩], [.empty]) := by
  intro s t outcome cfg start now hs hloc
  constructor
  · rfl
  · cases outcome <;> simp [releaseRun, hloc, hs]

/-- C6 witness: token "abc" round-trips through a concrete
configuration. -/
theorem C6_token_roundtrip_witness :
    handleClaim ⟨some "http://locks", 2500, 300000, 2500⟩ 0 0
        (.result true (some "abc")) = .finish (.ok (some "abc")) ∧
    releaseRun ⟨some "http://locks", 2500, 300000, 2500⟩ (some "abc") .ok
      = ([⟨"POST", "http://locks" ++ "/release", some "abc"⟩], [.empty]) :=
  C6_token_roundtrip "http://locks" (some "abc") .ok
    ⟨some "http://locks", 2500, 300000, 2500⟩ 0 0 (by decide) rfl

/-- C7: with `fastFailRegexps` configured (truthy), the guard of
sauce.js line 186 fires, but the assignment of line 187 copies the
misspelled property `fastFailRegexpss`, which the options object does
not have — so the launcher options carry `fastFailRegexps = undefined`
instead of the configured value, while the surrounding fields
(username, accessKey, tunnelIdentifier, readyFileId, port, logfile) are
populated as documented. -/
theorem C7_fastFailRegexps_typo_drops_value :
    jsTruthy ((⟨some "u", some "k", some "tid", some "(error)|(fail)"⟩ :
        TunnelOptions).get "fastFailRegexps") = true ∧
    (mkSauceOptions ⟨some "u", some "k", some "tid", some "(error)|(fail)"⟩
        "/tmp" "b1" false).fastFailRegexps = none ∧
    (mkSauceOptions ⟨some "u", some "k", some "tid", some "(error)|(fail)"⟩
        "/tmp" "b1" false).tunnelIdentifier = some "tid" ∧
    (mkSauceOptions ⟨some "u", some "k", some "tid", some "(error)|(fail)"⟩
        "/tmp" "b1" false).port = 56000 :=
  ⟨rfl, rfl, rfl, rfl⟩

/-- C8: when `locksServerLocation` is unset, `acquire` issues no request
and immediately invokes the callback with no arguments, and `release`
likewise issues no request and immediately invokes the callback, for
every script, token and remote outcome. -/
theorem C8_unset_server_no_requests :
    ∀ (cfg : LocksConfig) (start : Nat)
      (script : List (Nat × ClaimAttemptOutcome))
      (t : Option String) (outcome : ReleaseOutcome),
      cfg.locksServerLocation = none →
      acquireRun cfg start script = (0, some .empty) ∧
      releaseRun cfg t outcome = ([], [.empty]) := by
  intro cfg start script t outcome h
  constructor
  · simp [acquireRun, jsTruthy, h]
  · simp [releaseRun, h]

/-- C8 witness: a concrete configuration with no server location. -/
theorem C8_unset_server_witness :
    acquireRun ⟨none, 2500, 300000, 2500⟩ 0 [(0, .malformedBody)]
      = (0, some .empty) ∧
    releaseRun ⟨none, 2500, 300000, 2500⟩ (some "abc") .timeout
      = ([], [.empty]) :=
  C8_unset_server_no_requests ⟨none, 2500, 300000, 2500⟩ 0
    [(0, .malformedBody)] (some "abc") .timeout rfl

/-- C9: `close` with no subprocess handle resolves immediately with no
subprocess interaction; with a handle it calls `process.close` and
resolves only after the acknowledgment callback; and no run ever emits
a rejection. -/
theorem C9_close_events :
    closeRun none = [CloseEvent.resolved] ∧
    (∀ u, closeRun (some u) = [CloseEvent.procCloseCall, CloseEvent.resolved]) ∧
    (∀ ti, (closeRun ti).contains CloseEvent.rejected = false) := by
  refine ⟨rfl, fun u => rfl, fun ti => ?_⟩
  cases ti <;> rfl

/-- C10: when neither `sauce_browsers` nor `sauce_browser` is given, the
whole validation block is skipped: `validateConfig` returns the assigned
config without error and without auto-generating a tunnel id, for every
environment (including missing credentials) and every combination of
tunnel flags (including both conflicting flags at once). -/
theorem C10_no_sauce_args_skips_checks :
    ∀ (g : String) (argv : Argv) (env : EnvVars),
      argv.sauce_browsers = none → argv.sauce_browser = none →
      validateConfig g argv env = Except.ok (assignConfig argv env) := by
  intro g argv env h1 h2
  simp [validateConfig, jsTruthy, h1, h2]

/-- C10 witness: missing credentials and both conflicting tunnel flags,
with no sauce browser argument — still returns the config. -/
theorem C10_no_sauce_args_witness :
    validateConfig "guid1" ⟨none, none, some "t1", some "parent", true⟩
        ⟨none, none, none, none, none, none⟩
      = Except.ok (assignConfig ⟨none, none, some "t1", some "parent", true⟩
          ⟨none, none, none, none, none, none⟩) :=
  C10_no_sauce_args_skips_checks "guid1"
    ⟨none, none, some "t1", some "parent", true⟩
    ⟨none, none, none, none, none, none⟩ rfl rfl
